import Mathlib

/-!
Shallow embedding of `src/pi_camera_server.py` (pi-stream repository).

The program is a small HTTP camera server.  Its observable state is a single
photo file at a fixed path; the external capture tool (`libcamera-still`,
invoked through `os.system`) is modelled as data describing the outcome of one
invocation: either the process ran and returned an exit status (possibly
mutating the photo file), or an exception was raised while invoking it.
HTTP requests are modelled as (method, url) pairs and responses as a record of
status, headers of interest, and a byte body.
-/

namespace PiCameraServer

/-- Configuration constant `PHOTO_DIR` from the source. -/
def PHOTO_DIR : String := "/tmp/picam"

/-- Configuration constant `PHOTO_NAME` from the source. -/
def PHOTO_NAME : String := "current_photo.jpg"

/-- Configuration constant `SERVER_PORT` from the source. -/
def SERVER_PORT : Nat := 8080

/-- The fixed photo path, `os.path.join(PHOTO_DIR, PHOTO_NAME)`. -/
def photo_path : String := PHOTO_DIR ++ "/" ++ PHOTO_NAME

/-- Contents of the photo file: its raw bytes and its filesystem mtime
(seconds since the Unix epoch, as read by `os.path.getmtime`). -/
structure PhotoFile where
  content : List Nat
  mtime : Nat
deriving DecidableEq

/-- Filesystem state visible to the server: the photo file at the fixed
path `photo_path`, present (`some`) or absent (`none`). -/
structure FileState where
  photo : Option PhotoFile
deriving DecidableEq

/-- Outcome of one invocation of the external capture tool through
`os.system`: either the process ran and reported `exitCode`, leaving the
filesystem in state `fsAfter`, or an exception was raised during the
invocation (`exn`), leaving the filesystem in state `fsAfter`. -/
inductive ExtOutcome where
  | run (exitCode : Int) (fsAfter : FileState)
  | exn (fsAfter : FileState)
deriving DecidableEq

/-- Outcome of the startup capability probe command (`test_cmd` through
`os.system`): exit status, or an exception while invoking it. -/
inductive ProcResult where
  | run (exitCode : Int)
  | exn
deriving DecidableEq

/-- The capture command string built in `capture_photo`
(`libcamera-still --output ... --width 1640 --height 1232 --timeout 2000
--immediate`). -/
def capture_cmd : String :=
  "libcamera-still \x2d\x2doutput " ++ photo_path ++
    " \x2d\x2dwidth 1640 \x2d\x2dheight 1232 \x2d\x2dtimeout 2000 \x2d\x2dimmediate"

/-- The probe command string built in `setup_camera`
(`libcamera-still --immediate --output /tmp/test_cam.jpg --width 640
--height 480 --timeout 1`). -/
def test_cmd : String :=
  "libcamera-still \x2d\x2dimmediate \x2d\x2doutput /tmp/test_cam.jpg" ++
    " \x2d\x2dwidth 640 \x2d\x2dheight 480 \x2d\x2dtimeout 1"

/-- Embedding of `capture_photo` (source lines 189-209).  The function runs
the external tool and returns `True` iff `os.system` returned `0` and
`os.path.exists(photo_path)` holds afterwards; any exception inside the
`try` block yields `False`.  The returned state is the filesystem state
after the invocation. -/
def capture_photo (ext : ExtOutcome) : Bool × FileState :=
  match ext with
  | .run code fs2 => (code == 0 && fs2.photo.isSome, fs2)
  | .exn fs2 => (false, fs2)

/-- Embedding of `setup_camera` (source lines 168-187).  It runs `test_cmd`;
on exit status `0` it removes `/tmp/test_cam.jpg` and returns `True` — but
`os.remove` raises if that scratch file does not exist, and the surrounding
`except` then returns `False`.  Any non-zero status or exception returns
`False`.  `scratchExists` says whether `/tmp/test_cam.jpg` exists after the
probe command ran. -/
def setup_camera (probe : ProcResult) (scratchExists : Bool) : Bool :=
  match probe with
  | .run code => if code == 0 then scratchExists else false
  | .exn => false

/-- Decimal digit character, used to embed `strftime` zero-padded fields. -/
def digitChar (n : Nat) : Char := Char.ofNat (48 + n)

/-- Two-digit zero-padded decimal rendering (strftime `%m`, `%d`, `%H`,
`%M`, `%S`). -/
def pad2 (n : Nat) : String :=
  String.mk [digitChar (n / 10 % 10), digitChar (n % 10)]

/-- Four-digit zero-padded decimal rendering (strftime `%Y` for years below
10000, which covers every representable mtime in practice). -/
def pad4 (n : Nat) : String :=
  String.mk [digitChar (n / 1000 % 10), digitChar (n / 100 % 10),
    digitChar (n / 10 % 10), digitChar (n % 10)]

/-- Civil date (year, month, day) from a count of days since 1970-01-01,
the standard days-from-civil inverse used by calendar libraries.  Modelled
from the documented behavior of `datetime.fromtimestamp` for non-negative
timestamps (taken at UTC; the source formats in the host local time, which
only shifts the instant, not the format). -/
def civilFromDays (days : Nat) : Nat × Nat × Nat :=
  let z := days + 719468
  let era := z / 146097
  let doe := z % 146097
  let yoe := (doe - doe / 1460 + doe / 36524 - doe / 146096) / 365
  let y := yoe + era * 400
  let doy := doe - (365 * yoe + yoe / 4 - yoe / 100)
  let mp := (5 * doy + 2) / 153
  let d := doy - (153 * mp + 2) / 5 + 1
  let m := if mp < 10 then mp + 3 else mp - 9
  (if m ≤ 2 then y + 1 else y, m, d)

/-- Modelled from the Python standard library:
`datetime.fromtimestamp(t).strftime(\x27%Y-%m-%d %H:%M:%S\x27)` for a
non-negative integer timestamp, rendered at UTC. -/
def strftime_YmdHMS (t : Nat) : String :=
  let days := t / 86400
  let secs := t % 86400
  let ymd := civilFromDays days
  pad4 ymd.1 ++ "-" ++ pad2 ymd.2.1 ++ "-" ++ pad2 ymd.2.2 ++ " " ++
    pad2 (secs / 3600) ++ ":" ++ pad2 (secs % 3600 / 60) ++ ":" ++ pad2 (secs % 60)

/-- Embedding of `get_photo_timestamp` (source lines 211-217): the photo
file's mtime formatted as `%Y-%m-%d %H:%M:%S` when the file exists, and the
literal string `No photo available` otherwise. -/
def get_photo_timestamp (fs : FileState) : String :=
  match fs.photo with
  | some pf => strftime_YmdHMS pf.mtime
  | none => "No photo available"

/-- First step of `urllib.parse.urlparse`: the URL up to the first `?`
(query) or `#` (fragment), whichever comes first.  Modelled from the
documented behavior of `urlsplit`, which strips the fragment and then the
query. -/
def strip_query_fragment : List Char → List Char
  | [] => []
  | c :: rest =>
    if c = '?' ∨ c = '#' then [] else c :: strip_query_fragment rest

/-- The last `/`-separated segment of a character list (the part after the
last slash; the whole list when no slash occurs). -/
def afterLastSlash (cs : List Char) : List Char :=
  (cs.reverse.takeWhile (fun c => c ≠ '/')).reverse

/-- Everything strictly before the first `;`. -/
def dropFromFirstSemicolon : List Char → List Char
  | [] => []
  | c :: rest => if c = ';' then [] else c :: dropFromFirstSemicolon rest

/-- Second step of `urllib.parse.urlparse` (`_splitparams`): parameters,
introduced by `;` in the last path segment, are split off the path. -/
def splitparams_path (cs : List Char) : List Char :=
  if '/' ∈ cs then
    cs.take (cs.length - (afterLastSlash cs).length) ++
      dropFromFirstSemicolon (afterLastSlash cs)
  else
    dropFromFirstSemicolon cs

/-- Path component of a request URL, as computed by
`urlparse(self.path).path` in `do_GET` (source line 24): fragment and query
stripped, then `;`-parameters split off the last segment. -/
def urlparse_path (url : String) : String :=
  String.mk (splitparams_path (strip_query_fragment url.data))

/-- An HTTP response as observable from the handler: status code, the
`Content-type` header if sent, the `Cache-Control` header if sent, and the
body bytes. -/
structure Response where
  status : Nat
  contentType : Option String
  cacheControl : Option String
  body : List Nat
deriving DecidableEq

/-- Byte encoding of an ASCII string, as produced by `str.encode` /
byte-literal bodies in the source. -/
def strBytes (s : String) : List Nat := s.data.map Char.toNat

/-- Text of the f-string `html_content` (source lines 32-129) before the
single interpolation `\x7bget_photo_timestamp()\x7d`, with the `\x7b\x7b`
and `\x7d\x7d` escapes of the f-string rendered as single braces. -/
def htmlPre : String :=
  "\n            <!DOCTYPE html>\n            <html>\n            <head>\n                <title>Pi Camera Viewer</title>\n                <meta name=\"viewport\" content=\"width=device-width, initial-scale=1\">\n                <style>\n                    body \x7b\n                        font-family: Arial, sans-serif;\n                        max-width: 800px;\n                        margin: 0 auto;\n                        padding: 20px;\n                        background-color: #f0f0f0;\n                    \x7d\n                    .container \x7b\n                        background-color: white;\n                        padding: 20px;\n                        border-radius: 10px;\n                        box-shadow: 0 2px 10px rgba(0,0,0,0.1);\n                    \x7d\n                    h1 \x7b\n                        color: #333;\n                        text-align: center;\n                    \x7d\n                    .photo-container \x7b\n                        text-align: center;\n                        margin: 20px 0;\n                    \x7d\n                    img \x7b\n                        max-width: 100%;\n                        height: auto;\n                        border: 2px solid #ddd;\n                        border-radius: 5px;\n                    \x7d\n                    .buttons \x7b\n                        text-align: center;\n                        margin: 20px 0;\n                    \x7d\n                    button \x7b\n                        background-color: #4CAF50;\n                        color: white;\n                        padding: 10px 20px;\n                        border: none;\n                        border-radius: 5px;\n                        cursor: pointer;\n                        font-size: 16px;\n                        margin: 0 10px;\n                    \x7d\n                    button:hover \x7b\n                        background-color: #45a049;\n                    \x7d\n                    .info \x7b\n                        background-color: #e7f3ff;\n                        padding: 10px;\n                        border-radius: 5px;\n                        margin: 10px 0;\n                    \x7d\n                </style>\n            </head>\n            <body>\n                <div class=\"container\">\n                    <h1>Pi Camera Viewer</h1>\n                    <div class=\"info\">\n                        <strong>Last photo taken:</strong> "

/-- Text of the f-string `html_content` after the interpolation, up to the
closing `\"\"\"` on source line 129. -/
def htmlPost : String :=
  "\n                    </div>\n                    <div class=\"photo-container\">\n                        <img src=\"/photo\" alt=\"Pi Camera Photo\" id=\"photo\">\n                    </div>\n                    <div class=\"buttons\">\n                        <button onclick=\"takeNewPhoto()\">Take New Photo</button>\n                        <button onclick=\"refreshPhoto()\">Refresh</button>\n                    </div>\n                </div>\n                \n                <script>\n                    function takeNewPhoto() \x7b\n                        fetch(\x27/capture\x27)\n                            .then(response => response.text())\n                            .then(data => \x7b\n                                alert(\x27New photo captured!\x27);\n                                refreshPhoto();\n                            \x7d)\n                            .catch(error => \x7b\n                                alert(\x27Error taking photo: \x27 + error);\n                            \x7d);\n                    \x7d\n                    \n                    function refreshPhoto() \x7b\n                        document.getElementById(\x27photo\x27).src = \x27/photo?\x27 + new Date().getTime();\n                        location.reload();\n                    \x7d\n                    \n                    // Auto-refresh every 30 seconds\n                    setInterval(refreshPhoto, 30000);\n                </script>\n            </body>\n            </html>\n            "

/-- The `html_content` f-string of the `/` route: the page text with
`get_photo_timestamp()` interpolated at its single placeholder. -/
def html_content (ts : String) : String := htmlPre ++ ts ++ htmlPost

/-- Embedding of `CameraWebHandler.do_GET` (source lines 23-162).  The
handler dispatches on `urlparse(self.path).path`.  `ext` is the outcome the
external capture tool would have if invoked (used only on the `/capture`
route).  Returns the response written and the filesystem state after the
request. -/
def do_GET (url : String) (fs : FileState) (ext : ExtOutcome) :
    Response × FileState :=
  let p := urlparse_path url
  if p = "/" then
    (⟨200, some "text/html", none,
      strBytes (html_content (get_photo_timestamp fs))⟩, fs)
  else if p = "/photo" then
    match fs.photo with
    | some pf => (⟨200, some "image/jpeg", some "no-cache", pf.content⟩, fs)
    | none => (⟨404, none, none, strBytes "Photo not found"⟩, fs)
  else if p = "/capture" then
    let r := capture_photo ext
    if r.1 then
      (⟨200, some "text/plain", none,
        strBytes "Photo captured successfully"⟩, r.2)
    else
      (⟨500, none, none, strBytes "Failed to capture photo"⟩, r.2)
  else
    (⟨404, none, none, strBytes "Not found"⟩, fs)

/-- Modelled from the Python standard library: the error page body template
`DEFAULT_ERROR_MESSAGE` of `http.server.BaseHTTPRequestHandler.send_error`,
instantiated with a code, a message and an explanation. -/
def send_error_body (code : Nat) (message : String) (explain : String) :
    String :=
  "<!DOCTYPE HTML>\n<html lang=\"en\">\n    <head>\n        <meta charset=\"utf-8\">\n        <title>Error response</title>\n    </head>\n    <body>\n        <h1>Error response</h1>\n        <p>Error code: " ++
    toString code ++ "</p>\n        <p>Message: " ++ message ++
    ".</p>\n        <p>Error code explanation: " ++ toString code ++ " - " ++
    explain ++ ".</p>\n    </body>\n</html>\n"

/-- Modelled from the Python standard library:
`BaseHTTPRequestHandler.send_error` sends the status code with a
`text/html;charset=utf-8` body built from `send_error_body`. -/
def send_error (code : Nat) (message : String) (explain : String) :
    Response :=
  ⟨code, some "text/html;charset=utf-8", none,
    strBytes (send_error_body code message explain)⟩

/-- Modelled from the Python standard library: the method dispatch of
`BaseHTTPRequestHandler.handle_one_request`.  `CameraWebHandler` defines
only `do_GET`, so for any other method the base class answers
`send_error(501, \"Unsupported method (%r)\")` and the handler is never
entered; for method `GET` the request is handled by `do_GET`. -/
def handle_request (method : String) (url : String) (fs : FileState)
    (ext : ExtOutcome) : Response × FileState :=
  if method = "GET" then
    do_GET url fs ext
  else
    (send_error 501
      ("Unsupported method (\x27" ++ method ++ "\x27)")
      "Server does not support this operation", fs)

/-- Result of running `main` (source lines 231-266) up to the point where
the HTTP server would start: either the process returned after a failing
capability probe without binding the port (`abortedProbe`), or the server
was started with the filesystem state left by the initial capture and a
flag recording whether that capture succeeded. -/
inductive StartupResult where
  | abortedProbe
  | started (fs : FileState) (initialCaptureOk : Bool)
deriving DecidableEq

/-- Embedding of `main` (source lines 231-266).  If `setup_camera` fails,
the function returns before `HTTPServer` is constructed, so the port is
never bound.  Otherwise the initial `capture_photo` runs — its failure only
prints a warning — and the server starts. -/
def main (probe : ProcResult) (scratchExists : Bool) (initCap : ExtOutcome) :
    StartupResult :=
  if setup_camera probe scratchExists then
    let r := capture_photo initCap
    .started r.2 r.1
  else
    .abortedProbe


/-- Helper: the `/photo` route of `do_GET`, unfolded (a definitional equation). -/
theorem do_GET_photo_eq (fs : FileState) (e : ExtOutcome) :
    do_GET "/photo" fs e =
      (match fs.photo with
      | some pf => (⟨200, some "image/jpeg", some "no-cache", pf.content⟩, fs)
      | none => (⟨404, none, none, strBytes "Photo not found"⟩, fs)) := rfl

/-- Helper: the `/capture` route of `do_GET`, unfolded (a definitional equation). -/
theorem do_GET_capture_eq (fs : FileState) (e : ExtOutcome) :
    do_GET "/capture" fs e =
      (if (capture_photo e).1 then
        (⟨200, some "text/plain", none,
          strBytes "Photo captured successfully"⟩, (capture_photo e).2)
      else
        (⟨500, none, none, strBytes "Failed to capture photo"⟩,
          (capture_photo e).2)) := rfl

/-- C1: `capture_photo` returns `true` iff the external process reported exit
status zero and the photo file exists at the fixed path afterwards; a non-zero
exit, a missing output file, or an exception during the invocation all yield
`false` (the embedding is a total function into `Bool`, so no exception
reaches the caller). -/
theorem capture_photo_spec :
    (∀ fs2 : FileState, capture_photo (.exn fs2) = (false, fs2)) ∧
    ∀ e : ExtOutcome,
      ((capture_photo e).1 = true ↔
        ∃ fs2 : FileState, e = .run 0 fs2 ∧ fs2.photo.isSome = true) := by
  refine ⟨fun fs2 => rfl, fun e => ?_⟩
  cases e with
  | run code fs2 =>
    simp only [capture_photo, Bool.and_eq_true, beq_iff_eq, ExtOutcome.run.injEq]
    constructor
    · rintro ⟨h1, h2⟩
      exact ⟨fs2, ⟨h1, rfl⟩, h2⟩
    · rintro ⟨fs3, ⟨h1, rfl⟩, h3⟩
      exact ⟨h1, h3⟩
  | exn fs2 => simp [capture_photo]

/-- Witness for C1 at a concrete zero-exit invocation that produced a file. -/
theorem capture_photo_spec_witness :
    (capture_photo (.run 0 ⟨some ⟨[3], 1⟩⟩)).1 = true :=
  (capture_photo_spec.2 (.run 0 ⟨some ⟨[3], 1⟩⟩)).mpr ⟨⟨some ⟨[3], 1⟩⟩, rfl, rfl⟩

/-- C3: every GET request whose URL parses to the path `/photo`, made when the
photo file does not exist, is answered with status 404 and body exactly
`Photo not found`, with no content-type header and the filesystem unchanged. -/
theorem photo_absent_404 (url : String) (fs : FileState) (e : ExtOutcome)
    (hurl : urlparse_path url = "/photo") (h : fs.photo = none) :
    do_GET url fs e = (⟨404, none, none, strBytes "Photo not found"⟩, fs) := by
  unfold do_GET
  rw [hurl]
  simp [h]

/-- Witness for C3 at the concrete request `GET /photo` on an empty filesystem. -/
theorem photo_absent_404_witness :
    do_GET "/photo" ⟨none⟩ (.exn ⟨none⟩) =
      (⟨404, none, none, strBytes "Photo not found"⟩, ⟨none⟩) :=
  photo_absent_404 "/photo" ⟨none⟩ (.exn ⟨none⟩) rfl rfl

/-- C2 counterexample: when the external tool exits 0 after writing an empty
file, `GET /capture` reports success (200, `Photo captured successfully`) yet
the immediately following `GET /photo` has an empty body, contradicting the
claimed non-empty body. -/
theorem capture_empty_file_then_photo_empty :
    (do_GET "/capture" ⟨none⟩ (.run 0 ⟨some ⟨[], 0⟩⟩)).1.status = 200 ∧
    (do_GET "/capture" ⟨none⟩ (.run 0 ⟨some ⟨[], 0⟩⟩)).1.body =
      strBytes "Photo captured successfully" ∧
    (do_GET "/photo" (do_GET "/capture" ⟨none⟩ (.run 0 ⟨some ⟨[], 0⟩⟩)).2
      (.exn ⟨none⟩)).1.body = [] := by
  refine ⟨rfl, rfl, rfl⟩

/-- C2 (amended): after any `GET /capture` that completes with status 200, the
photo file exists, and an immediately following `GET /photo` returns 200 with
`Content-type image/jpeg`, `Cache-Control no-cache` and body equal to that
file's bytes (non-empty exactly when the tool wrote non-empty content). -/
theorem capture_success_then_photo (fs : FileState) (e1 e2 : ExtOutcome)
    (h : (do_GET "/capture" fs e1).1.status = 200) :
    ∃ pf : PhotoFile,
      ((do_GET "/capture" fs e1).2).photo = some pf ∧
      do_GET "/photo" ((do_GET "/capture" fs e1).2) e2 =
        (⟨200, some "image/jpeg", some "no-cache", pf.content⟩,
          (do_GET "/capture" fs e1).2) := by
  rw [do_GET_capture_eq] at h ⊢
  by_cases hc : (capture_photo e1).1
  · rw [if_pos hc] at h ⊢
    have hsome : ((capture_photo e1).2).photo.isSome = true := by
      cases e1 with
      | run code fs2 =>
        simp only [capture_photo, Bool.and_eq_true] at hc
        exact hc.2
      | exn fs2 => simp [capture_photo] at hc
    obtain ⟨pf, hpf⟩ := Option.isSome_iff_exists.mp hsome
    refine ⟨pf, hpf, ?_⟩
    rw [do_GET_photo_eq, hpf]
  · rw [if_neg hc] at h
    simp at h

/-- Witness for C2 (amended) at a concrete successful capture. -/
theorem capture_success_then_photo_witness :
    ∃ pf : PhotoFile,
      ((do_GET "/capture" ⟨none⟩ (.run 0 ⟨some ⟨[55], 9⟩⟩)).2).photo = some pf ∧
      do_GET "/photo" ((do_GET "/capture" ⟨none⟩ (.run 0 ⟨some ⟨[55], 9⟩⟩)).2)
          (.exn ⟨none⟩) =
        (⟨200, some "image/jpeg", some "no-cache", pf.content⟩,
          (do_GET "/capture" ⟨none⟩ (.run 0 ⟨some ⟨[55], 9⟩⟩)).2) :=
  capture_success_then_photo ⟨none⟩ (.run 0 ⟨some ⟨[55], 9⟩⟩) (.exn ⟨none⟩) rfl

/-- C4 counterexample: a `POST /` request is not answered with 404 and body
`Not found`; the stock `BaseHTTPRequestHandler` answers 501 Unsupported method
because the handler defines only `do_GET`. -/
theorem post_request_not_404 :
    ¬ ((handle_request "POST" "/" ⟨none⟩ (.exn ⟨none⟩)).1.status = 404 ∧
      (handle_request "POST" "/" ⟨none⟩ (.exn ⟨none⟩)).1.body =
        strBytes "Not found") := by
  decide

/-- C4 (amended): every GET request whose parsed path is none of `/`, `/photo`,
`/capture` is answered 404 with body exactly `Not found`; a request with any
other method is answered by the base server's 501 Unsupported method error and
leaves the filesystem unchanged. -/
theorem request_dispatch (method url : String) (fs : FileState)
    (e : ExtOutcome) :
    (method = "GET" → urlparse_path url ≠ "/" → urlparse_path url ≠ "/photo" →
      urlparse_path url ≠ "/capture" →
      handle_request method url fs e =
        (⟨404, none, none, strBytes "Not found"⟩, fs)) ∧
    (method ≠ "GET" →
      (handle_request method url fs e).1.status = 501 ∧
      (handle_request method url fs e).2 = fs) := by
  constructor
  · intro hm h1 h2 h3
    subst hm
    unfold handle_request
    rw [if_pos rfl]
    unfold do_GET
    simp only [h1, h2, h3, if_false, if_neg]
  · intro hm
    unfold handle_request
    rw [if_neg hm]
    exact ⟨rfl, rfl⟩

/-- Witness for C4 (amended) at the concrete request `GET /status`. -/
theorem request_dispatch_witness :
    handle_request "GET" "/status" ⟨none⟩ (.exn ⟨none⟩) =
      (⟨404, none, none, strBytes "Not found"⟩, ⟨none⟩) :=
  (request_dispatch "GET" "/status" ⟨none⟩ (.exn ⟨none⟩)).1 rfl
    (by decide) (by decide) (by decide)

/-- C5: `GET /` always returns status 200 with `Content-type text/html`, leaves
the state unchanged, and its body is the page with the timestamp line
interpolated: the photo file's mtime rendered by `%Y-%m-%d %H:%M:%S` when the
file exists, the literal `No photo available` otherwise. -/
theorem root_route_spec (fs : FileState) (e : ExtOutcome) :
    (do_GET "/" fs e).1.status = 200 ∧
    (do_GET "/" fs e).1.contentType = some "text/html" ∧
    (do_GET "/" fs e).1.body =
      strBytes (htmlPre ++ get_photo_timestamp fs ++ htmlPost) ∧
    (do_GET "/" fs e).2 = fs ∧
    (fs.photo = none → get_photo_timestamp fs = "No photo available") ∧
    (∀ pf : PhotoFile, fs.photo = some pf →
      get_photo_timestamp fs = strftime_YmdHMS pf.mtime) := by
  refine ⟨rfl, rfl, rfl, rfl, ?_, ?_⟩
  · intro h
    simp [get_photo_timestamp, h]
  · intro pf h
    simp [get_photo_timestamp, h]

/-- Witness for C5 at a concrete state holding a photo. -/
theorem root_route_spec_witness :
    get_photo_timestamp ⟨some ⟨[7], 5⟩⟩ = strftime_YmdHMS 5 :=
  (root_route_spec ⟨some ⟨[7], 5⟩⟩ (.exn ⟨none⟩)).2.2.2.2.2 ⟨[7], 5⟩ rfl

/-- Sanity check of the timestamp format: the epoch renders as
`1970-01-01 00:00:00`. -/
theorem strftime_epoch_eval : strftime_YmdHMS 0 = "1970-01-01 00:00:00" := by
  decide

/-- C6: when the startup capability probe fails, `main` returns before the
`HTTPServer` is constructed: the result is `abortedProbe` and is never a
`started` state, so the port is not bound and no request is serviced. -/
theorem probe_failure_aborts (probe : ProcResult) (scratch : Bool)
    (initCap : ExtOutcome) (h : setup_camera probe scratch = false) :
    main probe scratch initCap = .abortedProbe ∧
    ∀ (fs : FileState) (ok : Bool),
      main probe scratch initCap ≠ .started fs ok := by
  have hm : main probe scratch initCap = .abortedProbe := by
    unfold main
    rw [h]
    simp
  exact ⟨hm, fun fs ok hco => by rw [hm] at hco; exact StartupResult.noConfusion hco⟩

/-- Witness for C6 at a concrete failing probe (exit status 1). -/
theorem probe_failure_aborts_witness :
    main (.run 1) true (.run 0 ⟨some ⟨[1], 0⟩⟩) = .abortedProbe :=
  (probe_failure_aborts (.run 1) true (.run 0 ⟨some ⟨[1], 0⟩⟩) rfl).1

/-- C7: when the external tool exits non-zero and leaves the filesystem
unchanged, `GET /capture` returns 500 with body exactly
`Failed to capture photo` and the state is preserved; a subsequent
`GET /photo` then serves the prior photo bytes unchanged, or 404 `Photo not
found` when no photo existed. -/
theorem capture_failure_preserves_photo (fs : FileState) (code : Int)
    (e2 : ExtOutcome) (hcode : code ≠ 0) :
    do_GET "/capture" fs (.run code fs) =
      (⟨500, none, none, strBytes "Failed to capture photo"⟩, fs) ∧
    ((do_GET "/capture" fs (.run code fs)).2.photo = none →
      do_GET "/photo" (do_GET "/capture" fs (.run code fs)).2 e2 =
        (⟨404, none, none, strBytes "Photo not found"⟩, fs)) ∧
    (∀ pf : PhotoFile,
      (do_GET "/capture" fs (.run code fs)).2.photo = some pf →
      do_GET "/photo" (do_GET "/capture" fs (.run code fs)).2 e2 =
        (⟨200, some "image/jpeg", some "no-cache", pf.content⟩, fs)) := by
  have hfail : (capture_photo (.run code fs)).1 = false := by
    simp [capture_photo, hcode]
  have hcap : do_GET "/capture" fs (.run code fs) =
      (⟨500, none, none, strBytes "Failed to capture photo"⟩, fs) := by
    rw [do_GET_capture_eq, hfail]
    simp [capture_photo]
  refine ⟨hcap, ?_, ?_⟩
  · intro h
    rw [hcap] at h ⊢
    rw [do_GET_photo_eq, h]
  · intro pf h
    rw [hcap] at h ⊢
    rw [do_GET_photo_eq, h]

/-- Witness for C7 at a concrete failed capture over an existing photo. -/
theorem capture_failure_preserves_photo_witness :
    do_GET "/capture" ⟨some ⟨[9, 9], 3⟩⟩ (.run 1 ⟨some ⟨[9, 9], 3⟩⟩) =
      (⟨500, none, none, strBytes "Failed to capture photo"⟩,
        ⟨some ⟨[9, 9], 3⟩⟩) ∧
    do_GET "/photo"
        (do_GET "/capture" ⟨some ⟨[9, 9], 3⟩⟩ (.run 1 ⟨some ⟨[9, 9], 3⟩⟩)).2
        (.exn ⟨none⟩) =
      (⟨200, some "image/jpeg", some "no-cache", [9, 9]⟩,
        ⟨some ⟨[9, 9], 3⟩⟩) :=
  ⟨(capture_failure_preserves_photo ⟨some ⟨[9, 9], 3⟩⟩ 1 (.exn ⟨none⟩)
      (by decide)).1,
    (capture_failure_preserves_photo ⟨some ⟨[9, 9], 3⟩⟩ 1 (.exn ⟨none⟩)
      (by decide)).2.2 ⟨[9, 9], 3⟩ rfl⟩

/-- C8: serving `/photo` is a pure read: it leaves the filesystem unchanged,
repeating the request with no intervening capture yields a byte-identical
body, and the body depends only on the photo file's contents. -/
theorem photo_read_pure (fs fs2 : FileState) (e1 e2 : ExtOutcome) :
    (do_GET "/photo" fs e1).2 = fs ∧
    (do_GET "/photo" ((do_GET "/photo" fs e1).2) e2).1.body =
      (do_GET "/photo" fs e1).1.body ∧
    (fs2.photo.map PhotoFile.content = fs.photo.map PhotoFile.content →
      (do_GET "/photo" fs2 e2).1.body = (do_GET "/photo" fs e1).1.body) := by
  have hstate : (do_GET "/photo" fs e1).2 = fs := by
    rw [do_GET_photo_eq]
    cases fs.photo <;> rfl
  refine ⟨hstate, ?_, ?_⟩
  · rw [hstate]
    rw [do_GET_photo_eq fs e1, do_GET_photo_eq fs e2]
  · intro h
    rw [do_GET_photo_eq fs2 e2, do_GET_photo_eq fs e1]
    rcases h2 : fs2.photo with _ | pf2 <;> rcases hf : fs.photo with _ | pf <;>
      rw [h2, hf] at h <;> simp_all

/-- Witness for C8 at concrete states sharing the same photo bytes. -/
theorem photo_read_pure_witness :
    (do_GET "/photo" ⟨some ⟨[4], 2⟩⟩ (.exn ⟨none⟩)).2 = ⟨some ⟨[4], 2⟩⟩ ∧
    (do_GET "/photo" ⟨some ⟨[4], 7⟩⟩ (.run 0 ⟨none⟩)).1.body =
      (do_GET "/photo" ⟨some ⟨[4], 2⟩⟩ (.exn ⟨none⟩)).1.body :=
  ⟨(photo_read_pure ⟨some ⟨[4], 2⟩⟩ ⟨some ⟨[4], 2⟩⟩ (.exn ⟨none⟩)
      (.run 0 ⟨none⟩)).1,
    (photo_read_pure ⟨some ⟨[4], 2⟩⟩ ⟨some ⟨[4], 7⟩⟩ (.exn ⟨none⟩)
      (.run 0 ⟨none⟩)).2.2 (by decide)⟩

/-- C9: routing dispatches on the URL's path component only: appending any
query string to `/photo`, `/capture` or `/` leaves the handler's behavior
literally identical. -/
theorem query_string_ignored (q : String) (fs : FileState) (e : ExtOutcome) :
    do_GET ("/photo?" ++ q) fs e = do_GET "/photo" fs e ∧
    do_GET ("/capture?" ++ q) fs e = do_GET "/capture" fs e ∧
    do_GET ("/?" ++ q) fs e = do_GET "/" fs e :=
  ⟨rfl, rfl, rfl⟩

/-- C10: a failing initial capture is non-fatal: when the capability probe
succeeds and the initial `capture_photo` returns `false`, `main` still reaches
the `started` state (the server binds the port and serves). -/
theorem initial_capture_failure_nonfatal (probe : ProcResult) (scratch : Bool)
    (e : ExtOutcome) (hsetup : setup_camera probe scratch = true)
    (hcap : (capture_photo e).1 = false) :
    main probe scratch e = .started (capture_photo e).2 false := by
  unfold main
  rw [hsetup, ← hcap]
  simp

/-- Witness for C10 with a succeeding probe and a capture exiting non-zero. -/
theorem initial_capture_failure_nonfatal_witness :
    main (.run 0) true (.run 1 ⟨none⟩) =
      .started (capture_photo (.run 1 ⟨none⟩)).2 false :=
  initial_capture_failure_nonfatal (.run 0) true (.run 1 ⟨none⟩) rfl rfl

end PiCameraServer
